import Mathlib

/-
Verification of the core of onur/sysinfo-web (src/web.rs, src/sysinfo_ext.rs,
src/sysinfo_serde.rs) against its natural-language specification.

The embedding is shallow:
  - machine integers become Nat (all quantities involved are non-negative and
    never near overflow in the claims considered);
  - SystemTime values become Nat milliseconds since an arbitrary epoch;
    Duration.as_secs on the difference of two such values is division by 1000;
  - fallible external calls (gzip compression via flate2, JSON serialization
    via serde_json) become explicit function parameters returning Option,
    so that a failing run is a legal instantiation;
  - the warp filter pipeline becomes a total function on a request value;
    a filter rejection is represented explicitly (Option / a status code);
  - byte strings are List Nat; for the ASCII texts occurring in the program
    the code points written by strBytes coincide with the UTF-8 bytes.
-/

namespace SysinfoWeb

/-- Bytes of a string, as the list of its code points (identical to the
UTF-8 bytes for the ASCII literals used by the program). -/
def strBytes (s : String) : List Nat := s.toList.map (fun c => c.toNat)

/-- ASCII lower-casing of one byte, the fragment of Rust to_lowercase
relevant to the header tokens involved (gzip, the wildcard, identity...). -/
def lowerByte (n : Nat) : Nat := if 65 ≤ n && n ≤ 90 then n + 32 else n

/-- Lower-cased bytes of a string: models encoding.to_lowercase() in
web.rs line 97. -/
def strLowerBytes (s : String) : List Nat := s.toList.map (fun c => lowerByte c.toNat)

/-- Does the first list stand at the head of the second one? -/
def listHasPre : List Nat → List Nat → Bool
  | [], _ => true
  | _ :: _, [] => false
  | a :: as, b :: bs => a == b && listHasPre as bs

/-- Does the first list occur contiguously inside the second one?  Models
Rust str::contains for plain substring patterns. -/
def subSearch (needle : List Nat) : List Nat → Bool
  | [] => listHasPre needle []
  | b :: bs => listHasPre needle (b :: bs) || subSearch needle bs

/-- The condition of web.rs line 98: the lower-cased Accept-Encoding value
contains the substring gzip or the character *. -/
def gzip_accepted (encoding : String) : Bool :=
  let s := strLowerBytes encoding
  subSearch (strLowerBytes "gzip") s || subSearch (strLowerBytes "*") s

/-- An HTTP response as the program builds one: warp Response.builder gives
status 200 unless a status is set explicitly, and the program only ever sets
the two headers modelled here. -/
structure Resp where
  status : Nat
  contentType : Option String
  contentEncoding : Option String
  body : List Nat
deriving DecidableEq

/-- Request methods; the program only distinguishes GET (warp get2) from
everything else. -/
inductive Method where
  | GET
  | other
deriving DecidableEq

/-- The parts of an HTTP request the program inspects: the method, the
single path segment (empty for the root path /), and the optional
Accept-Encoding header value. -/
structure Request where
  method : Method
  path : String
  acceptEncoding : Option String
deriving DecidableEq

/-- The return_gzip_or_not macro of web.rs lines 92-124 (gzip feature), the
variant the spec describes as ContentNegotiator.negotiate.  The filter
warp::header("accept-encoding") rejects the request when the header is
absent: that rejection is the none result.  The compress parameter models
the flate2 GzEncoder write_all / finish pipeline; its none result covers
both failure points, which the source handles identically through the
return_gzip_err macro of lines 82-90 (uncompressed body, content-type set,
no content-encoding header). -/
def return_gzip_or_not (compress : List Nat → Option (List Nat))
    (acceptEncoding : Option String) (content : List Nat) (typ : String) :
    Option Resp :=
  match acceptEncoding with
  | none => none
  | some encoding =>
    if gzip_accepted encoding then
      match compress content with
      | some buffer => some ⟨200, some typ, some "gzip", buffer⟩
      | none => some ⟨200, some typ, none, content⟩
    else
      some ⟨200, some typ, none, content⟩

/-- The customize_error recover function of web.rs lines 162-178: a 404
rejection becomes a 404 reply with a fixed plain-text body, a 500 rejection
a 500 reply; any other rejection is passed back (none). -/
def customize_error (status : Nat) : Option Resp :=
  if status = 404 then
    some ⟨404, none, none, strBytes "you get a 404, and *you* get a 404..."⟩
  else if status = 500 then
    some ⟨500, none, none, strBytes ":fire: this is fine"⟩
  else
    none

/-- A rejection carrying the given status, run through
recover(customize_error); when customize_error passes the rejection back,
warp itself replies with the rejection status and an empty body. -/
def recoverWith (status : Nat) : Resp :=
  match customize_error status with
  | some r => r
  | none => ⟨status, none, none, []⟩

/-- The DataHandler of web.rs lines 64-68.  The sysinfo System value is
external state whose contents the scheduler never inspects; the model keeps
only the number of refresh_all calls performed on it, which is what the
scheduler claims count.  last_connection is a SystemTime in milliseconds;
json_output is the cached serialized snapshot. -/
structure DataHandler where
  system : Nat
  lastConnection : Nat
  jsonOutput : String
deriving DecidableEq

/-- The initial DataHandler of web.rs lines 181-185: a fresh System, the
process start time as last_connection, and the placeholder as the cache. -/
def data_handler_init (startTime : Nat) : DataHandler :=
  { system := 0, lastConnection := startTime, jsonOutput := "[]" }

/-- REFRESH_DELAY of web.rs line 25, in seconds. -/
def REFRESH_DELAY : Nat := 60 * 10

/-- DataHandler::can_update_system_info of web.rs lines 71-75.
SystemTime::now().duration_since(last) errs when last is later than now;
the following unwrap then panics, which the model makes the none result.
Otherwise the elapsed duration in whole seconds is compared with
REFRESH_DELAY. -/
def can_update_system_info (now last : Nat) : Option Bool :=
  if last ≤ now then some (decide ((now - last) / 1000 < REFRESH_DELAY)) else none

/-- DataHandler::update_last_connection of web.rs lines 77-79. -/
def update_last_connection (now : Nat) (st : DataHandler) : DataHandler :=
  { st with lastConnection := now }

/-- The observable steps of one metrics-request handler run, in the order
the handler performs them. -/
inductive HOp where
  | touch
  | readCache
  | negotiate
deriving DecidableEq

/-- The sysinfo.json handler of web.rs lines 218-221 (the update route):
update_last_connection, then a read of json_output, then
return_gzip_or_not on its bytes with content type application/json.  The
HOp trace records the order of the three steps. -/
def update_handler (compress : List Nat → Option (List Nat)) (now : Nat)
    (st : DataHandler) (req : Request) :
    DataHandler × List HOp × Option Resp :=
  let st2 := update_last_connection now st
  (st2, [HOp.touch, HOp.readCache, HOp.negotiate],
   return_gzip_or_not compress req.acceptEncoding (strBytes st2.jsonOutput)
     "application/json")

/-- The favicon.ico handler of web.rs lines 215-217 (the variable named
index in the source). -/
def favicon_handler (compress : List Nat → Option (List Nat))
    (favicon : List Nat) (req : Request) : Option Resp :=
  return_gzip_or_not compress req.acceptEncoding favicon "image/x-icon"

/-- The root-path handler of web.rs lines 222-224 (the variable named
index2 in the source), serving the static index document. -/
def index2_handler (compress : List Nat → Option (List Nat))
    (indexHtml : List Nat) (req : Request) : Option Resp :=
  return_gzip_or_not compress req.acceptEncoding indexHtml "text/html"

/-- The route composition of web.rs line 226 as written:
get2().and(index).recover(customize_error), where the or(update).or(index2)
combinators are commented out, so only the favicon.ico path is matched.  A
non-GET method is rejected by get2 with 405; a GET whose path is not
favicon.ico falls through as a 404 rejection; a matching request whose
Accept-Encoding header is absent is rejected by the header filter with 400.
Every rejection runs through recover(customize_error).  The returned
DataHandler is the state after the request: no wired route ever touches
it. -/
def serve (compress : List Nat → Option (List Nat)) (favicon : List Nat)
    (st : DataHandler) (req : Request) : DataHandler × Resp :=
  match req.method with
  | Method.GET =>
    if req.path = "favicon.ico" then
      match favicon_handler compress favicon req with
      | some r => (st, r)
      | none => (st, recoverWith 400)
    else
      (st, recoverWith 404)
  | Method.other => (st, recoverWith 405)

/-- The observable steps of one scheduler iteration: a refresh_all call on
the System (one provider sample), a publication into the json_output
cache, and a sleep of the given number of milliseconds. -/
inductive Ev where
  | refresh
  | publish (out : String)
  | sleepMs (ms : Nat)
deriving DecidableEq

/-- One System::refresh_all call of the external sysinfo provider; the
model counts the samples taken on the handle. -/
def refreshAll (system : Nat) : Nat := system + 1

/-- One iteration of the background loop of web.rs lines 188-212.  The
serialize parameter models serde_json::to_string applied to SysinfoExt::new
of the refreshed System (none is a serialization failure).  The sleeping
flag is the local mut sleeping of line 188, passed and returned
explicitly.  A none result is the panic of the unwrap inside
can_update_system_info.  In the active branch the system is refreshed once,
or twice when the previous iteration was idle, json_output is cleared and
rewritten with the serialization result (or the fallback after a
serialization failure), and the loop sleeps 5 seconds; in the idle branch
nothing is sampled, the loop sleeps 500 milliseconds and sets sleeping. -/
def scheduler_iter (serialize : Nat → Option String) (now : Nat)
    (st : DataHandler) (sleeping : Bool) :
    Option (DataHandler × Bool × List Ev) :=
  match can_update_system_info now st.lastConnection with
  | none => none
  | some true =>
    let sys2 := if sleeping then refreshAll (refreshAll st.system)
                else refreshAll st.system
    let out := (serialize sys2).getD "[]"
    let evs := (if sleeping then [Ev.refresh, Ev.refresh] else [Ev.refresh]) ++
               [Ev.publish out, Ev.sleepMs 5000]
    some ({ st with system := sys2, jsonOutput := out }, false, evs)
  | some false =>
    some (st, true, [Ev.sleepMs 500])

/-- A process entry of the external sysinfo crate as sysinfo_ext.rs uses
it: the fields read, cleared or serialized by the repository (name, cmd,
exe, environ, memory, tasks — the task map of a Linux process holds further
processes, hence the nested recursion; the pid also stored inside the entry
and the remaining scalar fields play no part in the claims and stand
omitted). -/
inductive Process where
  | mk (name : String) (cmd : List String) (exe : String)
       (environ : List String) (memory : Nat) (tasks : List Process)

/-- The name field of a process entry. -/
def Process.name : Process → String
  | .mk n _ _ _ _ _ => n

/-- The cmd field (command line arguments) of a process entry. -/
def Process.cmd : Process → List String
  | .mk _ c _ _ _ _ => c

/-- The exe field of a process entry. -/
def Process.exe : Process → String
  | .mk _ _ e _ _ _ => e

/-- The environ field (environment variables) of a process entry. -/
def Process.environ : Process → List String
  | .mk _ _ _ e _ _ => e

/-- The memory field of a process entry. -/
def Process.memory : Process → Nat
  | .mk _ _ _ _ m _ => m

/-- The tasks field of a process entry (Linux task map, as a list). -/
def Process.tasks : Process → List Process
  | .mk _ _ _ _ _ t => t

/-- The slice of the external sysinfo System state that SysinfoExt::new
reads for the claims considered: the process list, a map from pid to
process entry (modelled as an association list).  The processor, component
and disk lists and the memory figures are borrowed unchanged and carry no
invariant claimed here. -/
structure SysinfoSystem where
  process_list : List (Int × Process)

/-- The published process list of SysinfoExt (sysinfo_ext.rs lines 12-21
keeps it alongside the borrowed lists; only this field is built by the
repository rather than borrowed). -/
structure SysinfoExt where
  process_list : List (Int × Process)

/-- The per-entry transformation inside SysinfoExt::new (sysinfo_ext.rs
lines 31-43): clone the process, clear its tasks (Linux), its environment
variables and its command line arguments. -/
def clearProcessEntry : Process → Process
  | .mk n _ e _ m _ => .mk n [] e [] m []

/-- SysinfoExt::new of sysinfo_ext.rs lines 24-59, restricted to the
process list it builds: filter out processes with an empty name (unnamed
kernel threads), then clear tasks, environ and cmd of each kept entry. -/
def SysinfoExt.new (system : SysinfoSystem) : SysinfoExt :=
  ⟨(system.process_list.filter (fun p => !(p.2.name.isEmpty))).map
     (fun p => (p.1, clearProcessEntry p.2))⟩

/-- Helper: the active branch of one scheduler iteration, for a state whose
last_connection is at or before now and within REFRESH_DELAY. -/
theorem scheduler_iter_active (serialize : Nat → Option String) (now : Nat)
    (st : DataHandler) (sleeping : Bool)
    (hle : st.lastConnection ≤ now)
    (hact : (now - st.lastConnection) / 1000 < REFRESH_DELAY) :
    scheduler_iter serialize now st sleeping =
      some ({ st with
                system := if sleeping then refreshAll (refreshAll st.system)
                          else refreshAll st.system,
                jsonOutput := (serialize (if sleeping
                    then refreshAll (refreshAll st.system)
                    else refreshAll st.system)).getD "[]" },
            false,
            (if sleeping then [Ev.refresh, Ev.refresh] else [Ev.refresh]) ++
              [Ev.publish ((serialize (if sleeping
                  then refreshAll (refreshAll st.system)
                  else refreshAll st.system)).getD "[]"),
               Ev.sleepMs 5000]) := by
  simp [scheduler_iter, can_update_system_info, hle, hact]

/-- Helper: the idle branch of one scheduler iteration, for a state whose
last_connection is at or before now but at least REFRESH_DELAY ago. -/
theorem scheduler_iter_idle (serialize : Nat → Option String) (now : Nat)
    (st : DataHandler) (sleeping : Bool)
    (hle : st.lastConnection ≤ now)
    (hidle : ¬ (now - st.lastConnection) / 1000 < REFRESH_DELAY) :
    scheduler_iter serialize now st sleeping = some (st, true, [Ev.sleepMs 500]) := by
  simp [scheduler_iter, can_update_system_info, hle, hidle]

/-- C9: under the precondition that wall-clock time never goes backward,
so that last_connection (each write of which is now()) is at or before the
current time, the duration_since computation of
DataHandler::can_update_system_info never takes its error branch: the
unwrap cannot panic, and the elapsed time is the well-defined non-negative
value now - last whose whole seconds are compared against REFRESH_DELAY. -/
theorem can_update_no_panic (now last : Nat) (h : last ≤ now) :
    can_update_system_info now last =
      some (decide ((now - last) / 1000 < REFRESH_DELAY)) := by
  simp [can_update_system_info, h]

/-- Witness for C9 at now = 5, last = 3. -/
theorem can_update_no_panic_witness :
    can_update_system_info 5 3 =
      some (decide ((5 - 3) / 1000 < REFRESH_DELAY)) :=
  can_update_no_panic 5 3 (by decide)

/-- C3: one scheduler iteration, with time not having gone backward.  If
the elapsed time since last_connection is under REFRESH_DELAY (600 s), the
iteration samples the provider (a refresh event occurs), publishes the
serialization of the refreshed system into the cache (with the fallback on
failure), and ends sleeping 5000 ms; otherwise it performs no sample,
leaves the state untouched, sleeps 500 ms only, and sets the sleeping
flag. -/
theorem scheduler_active_idle_branches (serialize : Nat → Option String)
    (now : Nat) (st : DataHandler) (sleeping : Bool)
    (hle : st.lastConnection ≤ now) :
    ((now - st.lastConnection) / 1000 < REFRESH_DELAY →
      ∃ st2 evs, scheduler_iter serialize now st sleeping = some (st2, false, evs) ∧
        Ev.refresh ∈ evs ∧
        st2.jsonOutput = (serialize st2.system).getD "[]" ∧
        Ev.publish st2.jsonOutput ∈ evs ∧
        evs.getLast? = some (Ev.sleepMs 5000)) ∧
    (¬ (now - st.lastConnection) / 1000 < REFRESH_DELAY →
      scheduler_iter serialize now st sleeping = some (st, true, [Ev.sleepMs 500])) := by
  refine ⟨fun hact => ?_, fun hidle => scheduler_iter_idle serialize now st sleeping hle hidle⟩
  refine ⟨_, _, scheduler_iter_active serialize now st sleeping hle hact, ?_, ?_, ?_, ?_⟩
  · cases sleeping <;> simp
  · rfl
  · cases sleeping <;> simp
  · cases sleeping <;> rfl

/-- Witness for C3: active case at now = 1000 and idle case at
now = 600000, both from the startup state. -/
theorem scheduler_active_idle_branches_witness :
    (∃ st2 evs, scheduler_iter (fun _ => some "{}") 1000 (data_handler_init 0) false =
        some (st2, false, evs) ∧
      Ev.refresh ∈ evs ∧
      st2.jsonOutput = ((fun _ => some "{}") st2.system).getD "[]" ∧
      Ev.publish st2.jsonOutput ∈ evs ∧
      evs.getLast? = some (Ev.sleepMs 5000)) ∧
    scheduler_iter (fun _ => some "{}") 600000 (data_handler_init 0) false =
      some (data_handler_init 0, true, [Ev.sleepMs 500]) :=
  ⟨(scheduler_active_idle_branches (fun _ => some "{}") 1000 (data_handler_init 0) false
      (by decide)).1 (by decide),
   (scheduler_active_idle_branches (fun _ => some "{}") 600000 (data_handler_init 0) false
      (by decide)).2 (by decide)⟩

/-- C4: an idle iteration leaves the state unchanged and raises the
sleeping flag; the first active iteration after it samples the provider
exactly twice (the single publication coming after the second sample) and
clears the flag; the following active iteration samples exactly once, the
flag staying clear. -/
theorem scheduler_resume_double_sample (serialize : Nat → Option String)
    (now1 now2 now3 : Nat) (st : DataHandler) (sleeping : Bool)
    (h1le : st.lastConnection ≤ now1)
    (h1 : ¬ (now1 - st.lastConnection) / 1000 < REFRESH_DELAY)
    (h2le : st.lastConnection ≤ now2)
    (h2 : (now2 - st.lastConnection) / 1000 < REFRESH_DELAY)
    (h3le : st.lastConnection ≤ now3)
    (h3 : (now3 - st.lastConnection) / 1000 < REFRESH_DELAY) :
    scheduler_iter serialize now1 st sleeping = some (st, true, [Ev.sleepMs 500]) ∧
    ∃ st2, scheduler_iter serialize now2 st true =
        some (st2, false,
          [Ev.refresh, Ev.refresh, Ev.publish st2.jsonOutput, Ev.sleepMs 5000]) ∧
      st2.system = st.system + 2 ∧
      ∃ st3, scheduler_iter serialize now3 st2 false =
          some (st3, false, [Ev.refresh, Ev.publish st3.jsonOutput, Ev.sleepMs 5000]) ∧
        st3.system = st2.system + 1 := by
  refine ⟨scheduler_iter_idle serialize now1 st sleeping h1le h1,
    ⟨st.system + 2, st.lastConnection, (serialize (st.system + 2)).getD "[]"⟩,
    ?_, rfl, ⟨st.system + 3, st.lastConnection, (serialize (st.system + 3)).getD "[]"⟩,
    ?_, rfl⟩
  · have e2 := scheduler_iter_active serialize now2 st true h2le h2
    simpa [refreshAll] using e2
  · have e3 := scheduler_iter_active serialize now3
      ⟨st.system + 2, st.lastConnection, (serialize (st.system + 2)).getD "[]"⟩
      false h3le h3
    simpa [refreshAll] using e3

/-- Witness for C4: idle at now = 1600000, then active at 1000005 and
1000006, from a state last touched at 1000000. -/
theorem scheduler_resume_double_sample_witness :
    scheduler_iter (fun _ => some "{}") 1600000 ⟨0, 1000000, "[]"⟩ false =
      some (⟨0, 1000000, "[]"⟩, true, [Ev.sleepMs 500]) ∧
    ∃ st2, scheduler_iter (fun _ => some "{}") 1000005 ⟨0, 1000000, "[]"⟩ true =
        some (st2, false,
          [Ev.refresh, Ev.refresh, Ev.publish st2.jsonOutput, Ev.sleepMs 5000]) ∧
      st2.system = 0 + 2 ∧
      ∃ st3, scheduler_iter (fun _ => some "{}") 1000006 st2 false =
          some (st3, false, [Ev.refresh, Ev.publish st3.jsonOutput, Ev.sleepMs 5000]) ∧
        st3.system = st2.system + 1 :=
  scheduler_resume_double_sample (fun _ => some "{}") 1600000 1000005 1000006
    ⟨0, 1000000, "[]"⟩ false (by decide) (by decide) (by decide) (by decide)
    (by decide) (by decide)

/-- C7: in a refresh cycle whose serialization of the sampled snapshot
fails, the scheduler publishes the fallback value into the cache: the
resulting json_output is the empty JSON array, and its publication is
among the events of the iteration. -/
theorem scheduler_serialize_failure_fallback (serialize : Nat → Option String)
    (now : Nat) (st : DataHandler) (sleeping : Bool)
    (hle : st.lastConnection ≤ now)
    (hact : (now - st.lastConnection) / 1000 < REFRESH_DELAY)
    (hser : serialize (if sleeping then refreshAll (refreshAll st.system)
              else refreshAll st.system) = none) :
    ∃ st2 evs, scheduler_iter serialize now st sleeping = some (st2, false, evs) ∧
      st2.jsonOutput = "[]" ∧ Ev.publish "[]" ∈ evs := by
  refine ⟨_, _, scheduler_iter_active serialize now st sleeping hle hact, ?_, ?_⟩
  · simp [hser]
  · cases sleeping <;> simp_all

/-- Witness for C7: a serializer that always fails, one active iteration
from the startup state. -/
theorem scheduler_serialize_failure_fallback_witness :
    ∃ st2 evs, scheduler_iter (fun _ => none) 1000 (data_handler_init 0) false =
        some (st2, false, evs) ∧
      st2.jsonOutput = "[]" ∧ Ev.publish "[]" ∈ evs :=
  scheduler_serialize_failure_fallback (fun _ => none) 1000 (data_handler_init 0) false
    (by decide) (by decide) rfl

/-- C5 counterexample: with the Accept-Encoding header absent, the
negotiation filter of return_gzip_or_not produces no response at all (the
warp header filter rejects the request), rather than the unchanged payload
with the content-type header that the claim requires. -/
theorem negotiate_absent_header_rejected :
    return_gzip_or_not (fun l => some l) none [0] "text/html" = none ∧
    return_gzip_or_not (fun l => some l) none [0] "text/html" ≠
      some ⟨200, some "text/html", none, [0]⟩ :=
  ⟨rfl, by decide⟩

/-- C5 as amended: when the Accept-Encoding header is present, its
lower-cased value containing gzip or the wildcard yields the compressed
payload with a content-encoding gzip header (on compression success), and
otherwise the payload is returned unchanged and byte-identical with no
content-encoding header; the content-type header carries the
caller-supplied value in both cases.  When the header is absent the filter
rejects the request, producing no response. -/
theorem negotiate_amended (compress : List Nat → Option (List Nat))
    (enc : String) (payload : List Nat) (typ : String) :
    (gzip_accepted enc = false →
      return_gzip_or_not compress (some enc) payload typ =
        some ⟨200, some typ, none, payload⟩) ∧
    (∀ buffer, gzip_accepted enc = true → compress payload = some buffer →
      return_gzip_or_not compress (some enc) payload typ =
        some ⟨200, some typ, some "gzip", buffer⟩) ∧
    return_gzip_or_not compress none payload typ = none := by
  refine ⟨fun hno => ?_, fun buffer hyes hc => ?_, rfl⟩
  · simp [return_gzip_or_not, hno]
  · simp [return_gzip_or_not, hyes, hc]

/-- Witness for the amended C5: the gzip branch under a mixed-case header
and the unchanged branch under a header without the token. -/
theorem negotiate_amended_witness :
    return_gzip_or_not (fun l => some (0 :: l)) (some "deflate") [1, 2] "t" =
      some ⟨200, some "t", none, [1, 2]⟩ ∧
    return_gzip_or_not (fun l => some (0 :: l)) (some "GZip") [1, 2] "t" =
      some ⟨200, some "t", some "gzip", [0, 1, 2]⟩ :=
  ⟨(negotiate_amended (fun l => some (0 :: l)) "deflate" [1, 2] "t").1 (by decide),
   (negotiate_amended (fun l => some (0 :: l)) "GZip" [1, 2] "t").2.1 [0, 1, 2]
     (by decide) rfl⟩

/-- C6: when compression was requested and the compression step fails
(either encoder failure point), return_gzip_or_not falls back to the
original uncompressed payload with the content-type header set and no
content-encoding header, instead of failing the request. -/
theorem negotiate_compression_failure_fallback
    (compress : List Nat → Option (List Nat)) (enc : String)
    (payload : List Nat) (typ : String)
    (hyes : gzip_accepted enc = true) (hfail : compress payload = none) :
    return_gzip_or_not compress (some enc) payload typ =
      some ⟨200, some typ, none, payload⟩ := by
  simp [return_gzip_or_not, hyes, hfail]

/-- Witness for C6: an always-failing compressor and a header requesting
gzip by wildcard. -/
theorem negotiate_compression_failure_fallback_witness :
    return_gzip_or_not (fun _ => none) (some "br;q=1, *") [4, 5] "application/json" =
      some ⟨200, some "application/json", none, [4, 5]⟩ :=
  negotiate_compression_failure_fallback (fun _ => none) "br;q=1, *" [4, 5]
    "application/json" (by decide) rfl

/-- C2: the sysinfo.json handler performs, in order, the touch of
last_connection (set to the current time), the read of the cached
serialized snapshot, and the pass of its bytes through content negotiation
with content type application/json; and every GET request whose path is
none of the three routes of the source receives the 404 reply with the
fixed plain-text body. -/
theorem metrics_handler_and_unknown_path (compress : List Nat → Option (List Nat))
    (now : Nat) (st : DataHandler) (req : Request) :
    (update_handler compress now st req =
      ({ st with lastConnection := now },
       [HOp.touch, HOp.readCache, HOp.negotiate],
       return_gzip_or_not compress req.acceptEncoding (strBytes st.jsonOutput)
         "application/json")) ∧
    (∀ (favicon : List Nat) (r2 : Request), r2.method = Method.GET →
      r2.path ≠ "" → r2.path ≠ "favicon.ico" → r2.path ≠ "sysinfo.json" →
      serve compress favicon st r2 =
        (st, ⟨404, none, none,
              strBytes "you get a 404, and *you* get a 404..."⟩)) := by
  refine ⟨rfl, ?_⟩
  intro favicon r2 hm h1 h2 h3
  obtain ⟨m, p, e⟩ := r2
  cases m
  · simp only at h2
    simp [serve, h2, recoverWith, customize_error]
  · exact absurd hm (by simp)

/-- Witness for C2: the handler at a concrete state and the 404 reply for
a concrete unknown path. -/
theorem metrics_handler_and_unknown_path_witness :
    (update_handler (fun l => some l) 7 (data_handler_init 0)
        ⟨Method.GET, "sysinfo.json", some "identity"⟩ =
      ({ data_handler_init 0 with lastConnection := 7 },
       [HOp.touch, HOp.readCache, HOp.negotiate],
       return_gzip_or_not (fun l => some l) (some "identity") (strBytes "[]")
         "application/json")) ∧
    serve (fun l => some l) [7] (data_handler_init 0) ⟨Method.GET, "nope", none⟩ =
      (data_handler_init 0,
       ⟨404, none, none, strBytes "you get a 404, and *you* get a 404..."⟩) :=
  ⟨(metrics_handler_and_unknown_path (fun l => some l) 7 (data_handler_init 0)
      ⟨Method.GET, "sysinfo.json", some "identity"⟩).1,
   (metrics_handler_and_unknown_path (fun l => some l) 7 (data_handler_init 0)
      ⟨Method.GET, "sysinfo.json", some "identity"⟩).2 [7]
     ⟨Method.GET, "nope", none⟩ rfl (by decide) (by decide) (by decide)⟩

/-- C1: at the route composition actually written (web.rs line 226, where
the or-combinators for the update and index2 routes are commented out),
only the favicon endpoint is reachable: a GET of the root path and a GET
of sysinfo.json both receive 404 and leave the state untouched (in
particular the metrics route never touches last_connection), while a GET
of favicon.ico is served with content type image/x-icon; the two unwired
handlers would produce their documented responses if they were invoked. -/
theorem routes_only_favicon_wired :
    (serve (fun l => some l) [7] (data_handler_init 0)
        ⟨Method.GET, "", some "identity"⟩).2.status = 404 ∧
    (serve (fun l => some l) [7] (data_handler_init 0)
        ⟨Method.GET, "sysinfo.json", some "identity"⟩).2.status = 404 ∧
    (serve (fun l => some l) [7] (data_handler_init 0)
        ⟨Method.GET, "sysinfo.json", some "identity"⟩).1 = data_handler_init 0 ∧
    (serve (fun l => some l) [7] (data_handler_init 0)
        ⟨Method.GET, "favicon.ico", some "identity"⟩).2 =
      ⟨200, some "image/x-icon", none, [7]⟩ ∧
    index2_handler (fun l => some l) [3] ⟨Method.GET, "", some "identity"⟩ =
      some ⟨200, some "text/html", none, [3]⟩ ∧
    (update_handler (fun l => some l) 7 (data_handler_init 0)
        ⟨Method.GET, "sysinfo.json", some "identity"⟩).2.2 =
      some ⟨200, some "application/json", none, strBytes "[]"⟩ := by
  refine ⟨rfl, rfl, rfl, by decide, by decide, by decide⟩

/-- C8: the snapshot cache is initialized to the empty placeholder at
process start, and the metrics handler does not change it, so a read
before the first scheduler write returns exactly that placeholder and the
handler would reply 200 with body [] and content type application/json;
but the wired routes of line 226 answer the same GET with the 404 reply,
the metrics route having been commented out of the composition. -/
theorem startup_cache_and_metrics_route :
    (data_handler_init 0).jsonOutput = "[]" ∧
    (update_handler (fun l => some l) 5 (data_handler_init 0)
        ⟨Method.GET, "sysinfo.json", some "identity"⟩).1.jsonOutput = "[]" ∧
    (update_handler (fun l => some l) 5 (data_handler_init 0)
        ⟨Method.GET, "sysinfo.json", some "identity"⟩).2.2 =
      some ⟨200, some "application/json", none, strBytes "[]"⟩ ∧
    (serve (fun l => some l) [7] (data_handler_init 0)
        ⟨Method.GET, "sysinfo.json", some "identity"⟩).2 =
      ⟨404, none, none, strBytes "you get a 404, and *you* get a 404..."⟩ := by
  refine ⟨rfl, rfl, by decide, by decide⟩

/-- C10: every process entry published by SysinfoExt::new has a non-empty
name (entries with an empty name are filtered out entirely as unnamed
kernel threads) and has its environment-variable list, its command-line
argument list and its task list cleared to empty before publication. -/
theorem sysinfo_ext_new_process_invariants (system : SysinfoSystem)
    (pid : Int) (p : Process)
    (h : (pid, p) ∈ (SysinfoExt.new system).process_list) :
    p.name ≠ "" ∧ p.environ = [] ∧ p.cmd = [] ∧ p.tasks = [] := by
  simp only [SysinfoExt.new] at h
  rcases List.mem_map.mp h with ⟨⟨q1, q2⟩, hq, heq⟩
  rcases List.mem_filter.mp hq with ⟨_, hname⟩
  rcases Prod.mk.injEq .. ▸ heq with ⟨rfl, rfl⟩
  cases q2 with
  | mk n c e env m t =>
    refine ⟨?_, rfl, rfl, rfl⟩
    intro hempty
    rw [Bool.not_eq_true', ← Bool.not_eq_true] at hname
    exact hname ((String.isEmpty_iff _).mpr hempty)

/-- A concrete system state: one named process carrying environment
variables, arguments and a task, and one unnamed kernel thread. -/
def sampleSystem : SysinfoSystem :=
  ⟨[(1, .mk "init" ["arg"] "/sbin/init" ["PATH=/bin"] 100 [.mk "task" [] "" [] 0 []]),
    (2, .mk "" ["x"] "" [] 0 [])]⟩

/-- Witness for C10: membership of the cleared named process in the
published list of sampleSystem, and the invariants at that entry. -/
theorem sysinfo_ext_new_process_invariants_witness :
    (((1 : Int), Process.mk "init" [] "/sbin/init" [] 100 []) ∈
      (SysinfoExt.new sampleSystem).process_list) ∧
    ((Process.mk "init" [] "/sbin/init" [] 100 []).name ≠ "" ∧
     (Process.mk "init" [] "/sbin/init" [] 100 []).environ = [] ∧
     (Process.mk "init" [] "/sbin/init" [] 100 []).cmd = [] ∧
     (Process.mk "init" [] "/sbin/init" [] 100 []).tasks = []) :=
  have hm : ((1 : Int), Process.mk "init" [] "/sbin/init" [] 100 []) ∈
      (SysinfoExt.new sampleSystem).process_list := List.Mem.head _
  ⟨hm, sysinfo_ext_new_process_invariants sampleSystem 1
    (Process.mk "init" [] "/sbin/init" [] 100 []) hm⟩

end SysinfoWeb
